import Mathlib

/-
Verification of the GCS sheet-settings validity, migration and
derived-field resolution engine.

The development shallowly embeds src/model/gurps/sheet_settings.go.
The four owned sub-documents (page settings, block layout, attribute
definitions, body type) and the closed enumerations live in external
packages of the repository; they are abstracted as type parameters
P B A C together with a record of their operations.
-/

namespace GCS

/-- Modelled from the spec: the external collaborator interfaces consumed by
the settings engine, which live outside the provided sources. The four owned
sub-documents are abstract types with their factory constructors
(NewPageSettings, NewBlockLayout, FactoryAttributeDefs, FactoryBody) and the
validity routines of page and block layout; each closed enumeration
(progression.Option, fxp.LengthUnit, fxp.WeightUnit, display.Option) is
represented by the number of its valid members together with the ranks of the
members used by FactorySheetSettings (BasicSet, FeetAndInches, Pound, Inline,
Tooltip). -/
structure ExternalOps (P B A C : Type) where
  newPageSettings : P
  pageEnsureValidity : P → P
  newBlockLayout : B
  blockLayoutEnsureValidity : B → B
  factoryAttributeDefs : A
  factoryBody : C
  progressionCount : Nat
  lengthUnitCount : Nat
  weightUnitCount : Nat
  displayCount : Nat
  basicSet : Nat
  feetAndInches : Nat
  pound : Nat
  inline : Nat
  tooltip : Nat

/-- SheetSettingsData, the settings document written to disk
(src/model/gurps/sheet_settings.go lines 32 to 75). Nullable sub-document
pointers become Option values; fxp.Int fields become Int; enumerated fields
become the rank of the chosen member as a Nat. Field defaults are the zero
values Go gives fields missing from the decoded input. -/
@[ext]
structure SheetSettingsData (P B A C : Type) where
  page : Option P := none
  blockLayout : Option B := none
  attributes : Option A := none
  bodyType : Option C := none
  damageProgression : Nat := 0
  defaultLengthUnits : Nat := 0
  defaultWeightUnits : Nat := 0
  userDescriptionDisplay : Nat := 0
  modifiersDisplay : Nat := 0
  notesDisplay : Nat := 0
  skillLevelAdjDisplay : Nat := 0
  useMultiplicativeModifiers : Bool := false
  useModifyingDicePlusAdds : Bool := false
  useHalfStatDefaults : Bool := false
  showTraitModifierAdj : Bool := false
  showEquipmentModifierAdj : Bool := false
  showAllWeapons : Bool := false
  showSpellAdj : Bool := false
  hideSourceMismatch : Bool := false
  hideTLColumn : Bool := false
  hideLCColumn : Bool := false
  hidePageRefColumn : Bool := false
  useTitleInFooter : Bool := false
  excludeUnspentPointsFromTotal : Bool := false
  showLiftingSTDamage : Bool := false
  showIQBasedDamage : Bool := false
  useSkillModifierAdjustments : Bool := false
  easySkillModifierOverride : Int := 0
  averageSkillModifierOverride : Int := 0
  hardSkillModifierOverride : Int := 0
  veryHardSkillModifierOverride : Int := 0
  easySkillModifierAdjustment : Int := 0
  averageSkillModifierAdjustment : Int := 0
  hardSkillModifierAdjustment : Int := 0
  veryHardSkillModifierAdjustment : Int := 0
  useBasicMoveForDodge : Bool := false
  includeDodgeFlatBonus : Bool := false
  includePDArmor : Bool := false
  includePDShields : Bool := false
  usePassiveDefense : Bool := false
  showPDColumn : Bool := false
  dodgeOverride : Int := 0
  deriving DecidableEq

variable {P B A C : Type}

/-- Modelled from the spec: the EnsureValid routine shared by the closed
enumerations (replace an invalid rank by the lowest valid member). The
enumeration sources are not under the provided sources; the spec says each
enumerated scalar is replaced with its nearest or lowest valid member if
invalid. -/
def enumEnsureValid (count v : Nat) : Nat :=
  if v < count then v else 0

/-- Sub-document healing step of SheetSettings.EnsureValidity
(sheet_settings.go lines 139 to 154): a nil sub-document is replaced by its
factory default; a present page or block layout is recursively validated. -/
def healSubDocuments (ops : ExternalOps P B A C) (s : SheetSettingsData P B A C) :
    SheetSettingsData P B A C :=
  { s with
    page := some (match s.page with
      | none => ops.newPageSettings
      | some p => ops.pageEnsureValidity p)
    blockLayout := some (match s.blockLayout with
      | none => ops.newBlockLayout
      | some b => ops.blockLayoutEnsureValidity b)
    attributes := some (s.attributes.getD ops.factoryAttributeDefs)
    bodyType := some (s.bodyType.getD ops.factoryBody) }

/-- Enumeration healing step of SheetSettings.EnsureValidity
(sheet_settings.go lines 155 to 161). -/
def healEnums (ops : ExternalOps P B A C) (s : SheetSettingsData P B A C) :
    SheetSettingsData P B A C :=
  { s with
    damageProgression := enumEnsureValid ops.progressionCount s.damageProgression
    defaultLengthUnits := enumEnsureValid ops.lengthUnitCount s.defaultLengthUnits
    defaultWeightUnits := enumEnsureValid ops.weightUnitCount s.defaultWeightUnits
    userDescriptionDisplay := enumEnsureValid ops.displayCount s.userDescriptionDisplay
    modifiersDisplay := enumEnsureValid ops.displayCount s.modifiersDisplay
    notesDisplay := enumEnsureValid ops.displayCount s.notesDisplay
    skillLevelAdjDisplay := enumEnsureValid ops.displayCount s.skillLevelAdjDisplay }

/-- dodgeFieldsAtDefaults (sheet_settings.go line 171). -/
def dodgeFieldsAtDefaults (s : SheetSettingsData P B A C) : Bool :=
  !s.includeDodgeFlatBonus && !s.useBasicMoveForDodge

/-- skillModifierFieldsAtDefaults (sheet_settings.go lines 172 to 176). -/
def skillModifierFieldsAtDefaults (s : SheetSettingsData P B A C) : Bool :=
  !s.useSkillModifierAdjustments &&
    s.easySkillModifierOverride == 0 && s.averageSkillModifierOverride == 0 &&
    s.hardSkillModifierOverride == 0 && s.veryHardSkillModifierOverride == 0 &&
    s.easySkillModifierAdjustment == 0 && s.averageSkillModifierAdjustment == 0 &&
    s.hardSkillModifierAdjustment == 0 && s.veryHardSkillModifierAdjustment == 0

/-- The guard of the legacy-detection heuristic (sheet_settings.go line 177). -/
def legacyGuard (s : SheetSettingsData P B A C) : Bool :=
  dodgeFieldsAtDefaults s && skillModifierFieldsAtDefaults s

/-- The legacy-detection heuristic of SheetSettings.EnsureValidity
(sheet_settings.go lines 171 to 181): when both the dodge fields and the
skill-modifier fields are at their zero values, force IncludeDodgeFlatBonus
to the GURPS 4E default true. -/
def applyLegacyDodgeHeuristic (s : SheetSettingsData P B A C) :
    SheetSettingsData P B A C :=
  if legacyGuard s then { s with includeDodgeFlatBonus := true } else s

/-- Final step of SheetSettings.EnsureValidity (sheet_settings.go line 183):
ShowPDColumn is always synced with UsePassiveDefense. -/
def syncShowPDColumn (s : SheetSettingsData P B A C) : SheetSettingsData P B A C :=
  { s with showPDColumn := s.usePassiveDefense }

/-- SheetSettings.EnsureValidity (sheet_settings.go lines 138 to 184), as the
composition of its four steps in source order. -/
def ensureValidity (ops : ExternalOps P B A C) (s : SheetSettingsData P B A C) :
    SheetSettingsData P B A C :=
  syncShowPDColumn (applyLegacyDodgeHeuristic (healEnums ops (healSubDocuments ops s)))

/-- FactorySheetSettings (sheet_settings.go lines 92 to 115). -/
def factorySheetSettings (ops : ExternalOps P B A C) : SheetSettingsData P B A C :=
  { page := some ops.newPageSettings
    blockLayout := some ops.newBlockLayout
    attributes := some ops.factoryAttributeDefs
    bodyType := some ops.factoryBody
    damageProgression := ops.basicSet
    defaultLengthUnits := ops.feetAndInches
    defaultWeightUnits := ops.pound
    userDescriptionDisplay := ops.tooltip
    modifiersDisplay := ops.inline
    notesDisplay := ops.inline
    skillLevelAdjDisplay := ops.tooltip
    showSpellAdj := true
    useBasicMoveForDodge := false
    includeDodgeFlatBonus := true
    includePDArmor := false
    includePDShields := false
    usePassiveDefense := false }

/-- The raw content decoded by SheetSettings.UnmarshalJSONFrom
(sheet_settings.go lines 193 to 197): the current-shape data together with
the deprecated key hit_locations for the body type and the deprecated key
show_advantage_modifier_adj. A key missing from the input decodes to the Go
zero value (none or false). -/
structure RawSheetSettingsContent (P B A C : Type) where
  data : SheetSettingsData P B A C
  oldBodyType : Option C := none
  oldShowTraitModifierAdj : Bool := false

/-- SheetSettings.UnmarshalJSONFrom (sheet_settings.go lines 192 to 210)
after the external JSON decode has produced the raw content: adopt the
deprecated body type when the current one is nil, turn the trait-modifier
flag on when the deprecated flag was on, then run EnsureValidity. -/
def unmarshalJSONFrom (ops : ExternalOps P B A C)
    (content : RawSheetSettingsContent P B A C) : SheetSettingsData P B A C :=
  let s := content.data
  let s := match s.bodyType, content.oldBodyType with
    | none, some old => { s with bodyType := some old }
    | _, _ => s
  let s := if !s.showTraitModifierAdj && content.oldShowTraitModifierAdj then
      { s with showTraitModifierAdj := true }
    else s
  ensureValidity ops s

/-- The anonymous struct decoded by NewSheetSettingsFromFile
(sheet_settings.go lines 119 to 122): the new-style top-level document plus
the deprecated wrapper key sheet_settings. -/
structure SheetSettingsFileData (P B A C : Type) where
  sheetSettings : SheetSettingsData P B A C
  oldLocation : Option (SheetSettingsData P B A C) := none

/-- NewSheetSettingsFromFile (sheet_settings.go lines 117 to 135) after the
external jio.Load step, whose outcome (a decode failure, or the decoded file
data) is the argument: a load error is returned as is; otherwise the wrapper
document is preferred when present, and EnsureValidity runs on the chosen
document. -/
def newSheetSettingsFromFile {E : Type} (ops : ExternalOps P B A C)
    (loaded : Except E (SheetSettingsFileData P B A C)) :
    Except E (SheetSettingsData P B A C) :=
  match loaded with
  | .error e => .error e
  | .ok data =>
      .ok (ensureValidity ops (match data.oldLocation with
        | some s => s
        | none => data.sheetSettings))

/-- Modelled from the spec: the serialized shape produced by the external
JSON encoder for SheetSettingsData (MarshalJSONTo, sheet_settings.go lines
186 to 189). A field tagged omitzero is present only when non-default, so it
is an Option; the enumerated fields carry no omitzero tag and are always
present. Sub-document contents are encoded by their own packages and are
kept abstract. -/
structure SerializedSheetSettings (P B A C : Type) where
  page : Option P
  blockLayout : Option B
  attributes : Option A
  bodyType : Option C
  damageProgression : Nat
  defaultLengthUnits : Nat
  defaultWeightUnits : Nat
  userDescriptionDisplay : Nat
  modifiersDisplay : Nat
  notesDisplay : Nat
  skillLevelAdjDisplay : Nat
  useMultiplicativeModifiers : Option Bool
  useModifyingDicePlusAdds : Option Bool
  useHalfStatDefaults : Option Bool
  showTraitModifierAdj : Option Bool
  showEquipmentModifierAdj : Option Bool
  showAllWeapons : Option Bool
  showSpellAdj : Option Bool
  hideSourceMismatch : Option Bool
  hideTLColumn : Option Bool
  hideLCColumn : Option Bool
  hidePageRefColumn : Option Bool
  useTitleInFooter : Option Bool
  excludeUnspentPointsFromTotal : Option Bool
  showLiftingSTDamage : Option Bool
  showIQBasedDamage : Option Bool
  useSkillModifierAdjustments : Option Bool
  easySkillModifierOverride : Option Int
  averageSkillModifierOverride : Option Int
  hardSkillModifierOverride : Option Int
  veryHardSkillModifierOverride : Option Int
  easySkillModifierAdjustment : Option Int
  averageSkillModifierAdjustment : Option Int
  hardSkillModifierAdjustment : Option Int
  veryHardSkillModifierAdjustment : Option Int
  useBasicMoveForDodge : Option Bool
  includeDodgeFlatBonus : Option Bool
  includePDArmor : Option Bool
  includePDShields : Option Bool
  usePassiveDefense : Option Bool
  showPDColumn : Option Bool
  dodgeOverride : Option Int

/-- Modelled from the spec: the omitzero encoding of a Bool field, emitted
only when true. -/
def boolField (b : Bool) : Option Bool :=
  if b then some true else none

/-- Modelled from the spec: the omitzero encoding of a numeric field,
emitted only when non-zero. -/
def intField (v : Int) : Option Int :=
  if v == 0 then none else some v

/-- Modelled from the spec: SheetSettings.MarshalJSONTo (sheet_settings.go
lines 186 to 189) composed with the external sparse JSON encoding of
SheetSettingsData, omitting default-valued fields. -/
def marshalJSONTo (s : SheetSettingsData P B A C) : SerializedSheetSettings P B A C :=
  { page := s.page
    blockLayout := s.blockLayout
    attributes := s.attributes
    bodyType := s.bodyType
    damageProgression := s.damageProgression
    defaultLengthUnits := s.defaultLengthUnits
    defaultWeightUnits := s.defaultWeightUnits
    userDescriptionDisplay := s.userDescriptionDisplay
    modifiersDisplay := s.modifiersDisplay
    notesDisplay := s.notesDisplay
    skillLevelAdjDisplay := s.skillLevelAdjDisplay
    useMultiplicativeModifiers := boolField s.useMultiplicativeModifiers
    useModifyingDicePlusAdds := boolField s.useModifyingDicePlusAdds
    useHalfStatDefaults := boolField s.useHalfStatDefaults
    showTraitModifierAdj := boolField s.showTraitModifierAdj
    showEquipmentModifierAdj := boolField s.showEquipmentModifierAdj
    showAllWeapons := boolField s.showAllWeapons
    showSpellAdj := boolField s.showSpellAdj
    hideSourceMismatch := boolField s.hideSourceMismatch
    hideTLColumn := boolField s.hideTLColumn
    hideLCColumn := boolField s.hideLCColumn
    hidePageRefColumn := boolField s.hidePageRefColumn
    useTitleInFooter := boolField s.useTitleInFooter
    excludeUnspentPointsFromTotal := boolField s.excludeUnspentPointsFromTotal
    showLiftingSTDamage := boolField s.showLiftingSTDamage
    showIQBasedDamage := boolField s.showIQBasedDamage
    useSkillModifierAdjustments := boolField s.useSkillModifierAdjustments
    easySkillModifierOverride := intField s.easySkillModifierOverride
    averageSkillModifierOverride := intField s.averageSkillModifierOverride
    hardSkillModifierOverride := intField s.hardSkillModifierOverride
    veryHardSkillModifierOverride := intField s.veryHardSkillModifierOverride
    easySkillModifierAdjustment := intField s.easySkillModifierAdjustment
    averageSkillModifierAdjustment := intField s.averageSkillModifierAdjustment
    hardSkillModifierAdjustment := intField s.hardSkillModifierAdjustment
    veryHardSkillModifierAdjustment := intField s.veryHardSkillModifierAdjustment
    useBasicMoveForDodge := boolField s.useBasicMoveForDodge
    includeDodgeFlatBonus := boolField s.includeDodgeFlatBonus
    includePDArmor := boolField s.includePDArmor
    includePDShields := boolField s.includePDShields
    usePassiveDefense := boolField s.usePassiveDefense
    showPDColumn := boolField s.showPDColumn
    dodgeOverride := intField s.dodgeOverride }

/-- Modelled from the spec: the external JSON decode of a serialized
document back into SheetSettingsData, missing keys defaulting to the Go zero
value of the field. -/
def decodeSerialized (raw : SerializedSheetSettings P B A C) :
    SheetSettingsData P B A C :=
  { page := raw.page
    blockLayout := raw.blockLayout
    attributes := raw.attributes
    bodyType := raw.bodyType
    damageProgression := raw.damageProgression
    defaultLengthUnits := raw.defaultLengthUnits
    defaultWeightUnits := raw.defaultWeightUnits
    userDescriptionDisplay := raw.userDescriptionDisplay
    modifiersDisplay := raw.modifiersDisplay
    notesDisplay := raw.notesDisplay
    skillLevelAdjDisplay := raw.skillLevelAdjDisplay
    useMultiplicativeModifiers := raw.useMultiplicativeModifiers.getD false
    useModifyingDicePlusAdds := raw.useModifyingDicePlusAdds.getD false
    useHalfStatDefaults := raw.useHalfStatDefaults.getD false
    showTraitModifierAdj := raw.showTraitModifierAdj.getD false
    showEquipmentModifierAdj := raw.showEquipmentModifierAdj.getD false
    showAllWeapons := raw.showAllWeapons.getD false
    showSpellAdj := raw.showSpellAdj.getD false
    hideSourceMismatch := raw.hideSourceMismatch.getD false
    hideTLColumn := raw.hideTLColumn.getD false
    hideLCColumn := raw.hideLCColumn.getD false
    hidePageRefColumn := raw.hidePageRefColumn.getD false
    useTitleInFooter := raw.useTitleInFooter.getD false
    excludeUnspentPointsFromTotal := raw.excludeUnspentPointsFromTotal.getD false
    showLiftingSTDamage := raw.showLiftingSTDamage.getD false
    showIQBasedDamage := raw.showIQBasedDamage.getD false
    useSkillModifierAdjustments := raw.useSkillModifierAdjustments.getD false
    easySkillModifierOverride := raw.easySkillModifierOverride.getD 0
    averageSkillModifierOverride := raw.averageSkillModifierOverride.getD 0
    hardSkillModifierOverride := raw.hardSkillModifierOverride.getD 0
    veryHardSkillModifierOverride := raw.veryHardSkillModifierOverride.getD 0
    easySkillModifierAdjustment := raw.easySkillModifierAdjustment.getD 0
    averageSkillModifierAdjustment := raw.averageSkillModifierAdjustment.getD 0
    hardSkillModifierAdjustment := raw.hardSkillModifierAdjustment.getD 0
    veryHardSkillModifierAdjustment := raw.veryHardSkillModifierAdjustment.getD 0
    useBasicMoveForDodge := raw.useBasicMoveForDodge.getD false
    includeDodgeFlatBonus := raw.includeDodgeFlatBonus.getD false
    includePDArmor := raw.includePDArmor.getD false
    includePDShields := raw.includePDShields.getD false
    usePassiveDefense := raw.usePassiveDefense.getD false
    showPDColumn := raw.showPDColumn.getD false
    dodgeOverride := raw.dodgeOverride.getD 0 }

/-- Loading back a file saved by SheetSettings.Save: the saved bytes carry
neither the wrapper key nor the deprecated keys, so the embedded
SheetSettings decodes through UnmarshalJSONFrom with both deprecated values
absent, the wrapper is nil, and NewSheetSettingsFromFile applies
EnsureValidity to the result. -/
def loadSerialized (ops : ExternalOps P B A C)
    (raw : SerializedSheetSettings P B A C) : SheetSettingsData P B A C :=
  ensureValidity ops (unmarshalJSONFrom ops { data := decodeSerialized raw })

/-- The four skill difficulty tiers. -/
inductive Difficulty where
  | easy
  | average
  | hard
  | veryHard
  deriving DecidableEq

/-- Modelled from the spec: the GURPS 4E baseline relative-skill-level
modifier of each difficulty tier (Easy 0, Average -1, Hard -2,
VeryHard -3), as also stated by the tooltips of
sheetSettingsDockable.createOverrideFields. -/
def baselineRelativeSkillModifier : Difficulty → Int
  | .easy => 0
  | .average => -1
  | .hard => -2
  | .veryHard => -3

/-- The override field of the document for a given tier. -/
def skillModifierOverrideFor (s : SheetSettingsData P B A C) : Difficulty → Int
  | .easy => s.easySkillModifierOverride
  | .average => s.averageSkillModifierOverride
  | .hard => s.hardSkillModifierOverride
  | .veryHard => s.veryHardSkillModifierOverride

/-- The adjustment field of the document for a given tier. -/
def skillModifierAdjustmentFor (s : SheetSettingsData P B A C) : Difficulty → Int
  | .easy => s.easySkillModifierAdjustment
  | .average => s.averageSkillModifierAdjustment
  | .hard => s.hardSkillModifierAdjustment
  | .veryHard => s.veryHardSkillModifierAdjustment

/-- Modelled from the spec: the ModifierResolver, EffectiveModifier of a
document at a tier. The resolver itself is not under the provided sources
(only the settings dialog that edits its fields is); per the spec, override
mode returns the override verbatim and adjustment mode adds the adjustment
to the tier baseline, as the dialog tooltips also state. -/
def effectiveModifier (s : SheetSettingsData P B A C) (t : Difficulty) : Int :=
  if s.useSkillModifierAdjustments then skillModifierOverrideFor s t
  else baselineRelativeSkillModifier t + skillModifierAdjustmentFor s t

/-- An addressable heap of sub-documents, used to make Go pointer aliasing
explicit: next is the first free address, mem the contents. -/
structure Heap (α : Type) where
  next : Nat
  mem : Nat → α

/-- Dereference a pointer. -/
def Heap.read {α : Type} (h : Heap α) (r : Nat) : α :=
  h.mem r

/-- Mutate the cell a pointer refers to. -/
def Heap.write {α : Type} (h : Heap α) (r : Nat) (v : α) : Heap α :=
  { h with mem := fun x => if x = r then v else h.mem x }

/-- Allocate a fresh cell holding v and return its address. -/
def Heap.alloc {α : Type} (h : Heap α) (v : α) : Heap α × Nat :=
  ({ next := h.next + 1, mem := fun x => if x = h.next then v else h.mem x }, h.next)

/-- A SheetSettings value with its sub-documents held by reference, as the
Go struct holds them through pointers. -/
structure SheetSettingsRefs (P B A C : Type) where
  data : SheetSettingsData P B A C
  pageRef : Nat
  blockLayoutRef : Nat
  attributesRef : Nat
  bodyTypeRef : Nat

/-- The heaps holding every live sub-document of every settings value. -/
structure SubDocStore (P B A C : Type) where
  pages : Heap P
  blockLayouts : Heap B
  attributeDefs : Heap A
  bodies : Heap C

/-- A pointer of refs is live when it is below the free mark of its heap. -/
def SheetSettingsRefs.wf (st : SubDocStore P B A C) (s : SheetSettingsRefs P B A C) : Prop :=
  s.pageRef < st.pages.next ∧ s.blockLayoutRef < st.blockLayouts.next ∧
    s.attributesRef < st.attributeDefs.next ∧ s.bodyTypeRef < st.bodies.next

instance (st : SubDocStore P B A C) (s : SheetSettingsRefs P B A C) :
    Decidable (s.wf st) := by
  unfold SheetSettingsRefs.wf
  infer_instance

/-- SheetSettings.Clone (sheet_settings.go lines 212 to 220): the struct is
copied, then each owned sub-document is deep-copied into a fresh cell via the
Clone routine of its own package (external, abstracted as the four copy
functions). -/
def cloneSettings (pageClone : P → P) (blockClone : B → B) (attrsClone : A → A)
    (bodyClone : C → C) (st : SubDocStore P B A C) (s : SheetSettingsRefs P B A C) :
    SubDocStore P B A C × SheetSettingsRefs P B A C :=
  let (hp, p) := st.pages.alloc (pageClone (st.pages.read s.pageRef))
  let (hb, b) := st.blockLayouts.alloc (blockClone (st.blockLayouts.read s.blockLayoutRef))
  let (ha, a) := st.attributeDefs.alloc (attrsClone (st.attributeDefs.read s.attributesRef))
  let (hc, c) := st.bodies.alloc (bodyClone (st.bodies.read s.bodyTypeRef))
  (⟨hp, hb, ha, hc⟩,
    { s with pageRef := p, blockLayoutRef := b, attributesRef := a, bodyTypeRef := c })

/-- The fields inspected by the legacy-detection heuristic, all at their Go
zero values, written out as a proposition: the two dodge-calculation toggles,
the skill-modifier mode switch, and the eight skill-modifier numbers. -/
def dodgeAndSkillFieldsAtZero (s : SheetSettingsData P B A C) : Prop :=
  s.includeDodgeFlatBonus = false ∧ s.useBasicMoveForDodge = false ∧
    s.useSkillModifierAdjustments = false ∧
    s.easySkillModifierOverride = 0 ∧ s.averageSkillModifierOverride = 0 ∧
    s.hardSkillModifierOverride = 0 ∧ s.veryHardSkillModifierOverride = 0 ∧
    s.easySkillModifierAdjustment = 0 ∧ s.averageSkillModifierAdjustment = 0 ∧
    s.hardSkillModifierAdjustment = 0 ∧ s.veryHardSkillModifierAdjustment = 0

instance (s : SheetSettingsData P B A C) : Decidable (dodgeAndSkillFieldsAtZero s) := by
  unfold dodgeAndSkillFieldsAtZero
  infer_instance

/-- A concrete instantiation of the external collaborators: trivial
sub-documents and small enumerations, used to evaluate the theorems on
concrete inputs. -/
def unitOps : ExternalOps Unit Unit Unit Unit :=
  { newPageSettings := ()
    pageEnsureValidity := fun p => p
    newBlockLayout := ()
    blockLayoutEnsureValidity := fun b => b
    factoryAttributeDefs := ()
    factoryBody := ()
    progressionCount := 1
    lengthUnitCount := 1
    weightUnitCount := 1
    displayCount := 4
    basicSet := 0
    feetAndInches := 0
    pound := 0
    inline := 1
    tooltip := 2 }

/-- The all-zero document: what Go decodes from an empty JSON object. -/
def zeroSheetSettings : SheetSettingsData Unit Unit Unit Unit := {}

/-- A document in override mode, a skill-modifier field at a non-default
value. -/
def overrideModeSettings : SheetSettingsData Unit Unit Unit Unit :=
  { useSkillModifierAdjustments := true }

/-- A semantically invalid document: out-of-range enumeration rank and null
sub-documents. -/
def invalidEnumSettings : SheetSettingsData Unit Unit Unit Unit :=
  { damageProgression := 99, notesDisplay := 17 }

/-- Spec example for adjustment mode: AverageSkillModifierAdjustment = 2. -/
def adjustmentExampleSettings : SheetSettingsData Unit Unit Unit Unit :=
  { averageSkillModifierAdjustment := 2 }

/-- Spec example for override mode: HardSkillModifierOverride = 5 with a
HardSkillModifierAdjustment of 100 that must be ignored. -/
def overrideExampleSettings : SheetSettingsData Unit Unit Unit Unit :=
  { useSkillModifierAdjustments := true
    hardSkillModifierOverride := 5
    hardSkillModifierAdjustment := 100 }

/-- A tiny concrete heap of Nat sub-documents with one live cell. -/
def natHeap : Heap Nat := { next := 1, mem := fun _ => 7 }

/-- A concrete store built from natHeap. -/
def natStore : SubDocStore Nat Nat Nat Nat := ⟨natHeap, natHeap, natHeap, natHeap⟩

/-- A concrete settings value whose four sub-document pointers refer to cell
0 of each heap. -/
def natRefs : SheetSettingsRefs Nat Nat Nat Nat := ⟨{}, 0, 0, 0, 0⟩

/-! ## Helper lemmas -/

lemma enumEnsureValid_idem (count v : Nat) :
    enumEnsureValid count (enumEnsureValid count v) = enumEnsureValid count v := by
  unfold enumEnsureValid
  by_cases h : v < count <;> simp [h]

lemma enumEnsureValid_of_lt {count v : Nat} (h : v < count) :
    enumEnsureValid count v = v := if_pos h

lemma legacyGuard_heal (ops : ExternalOps P B A C) (s : SheetSettingsData P B A C) :
    legacyGuard (healEnums ops (healSubDocuments ops s)) = legacyGuard s := rfl

/-- Closed form of EnsureValidity: every field of the result as a function of
the input fields. -/
lemma ensureValidity_eq (ops : ExternalOps P B A C) (s : SheetSettingsData P B A C) :
    ensureValidity ops s =
      { page := some (match s.page with
          | none => ops.newPageSettings
          | some p => ops.pageEnsureValidity p)
        blockLayout := some (match s.blockLayout with
          | none => ops.newBlockLayout
          | some b => ops.blockLayoutEnsureValidity b)
        attributes := some (s.attributes.getD ops.factoryAttributeDefs)
        bodyType := some (s.bodyType.getD ops.factoryBody)
        damageProgression := enumEnsureValid ops.progressionCount s.damageProgression
        defaultLengthUnits := enumEnsureValid ops.lengthUnitCount s.defaultLengthUnits
        defaultWeightUnits := enumEnsureValid ops.weightUnitCount s.defaultWeightUnits
        userDescriptionDisplay := enumEnsureValid ops.displayCount s.userDescriptionDisplay
        modifiersDisplay := enumEnsureValid ops.displayCount s.modifiersDisplay
        notesDisplay := enumEnsureValid ops.displayCount s.notesDisplay
        skillLevelAdjDisplay := enumEnsureValid ops.displayCount s.skillLevelAdjDisplay
        useMultiplicativeModifiers := s.useMultiplicativeModifiers
        useModifyingDicePlusAdds := s.useModifyingDicePlusAdds
        useHalfStatDefaults := s.useHalfStatDefaults
        showTraitModifierAdj := s.showTraitModifierAdj
        showEquipmentModifierAdj := s.showEquipmentModifierAdj
        showAllWeapons := s.showAllWeapons
        showSpellAdj := s.showSpellAdj
        hideSourceMismatch := s.hideSourceMismatch
        hideTLColumn := s.hideTLColumn
        hideLCColumn := s.hideLCColumn
        hidePageRefColumn := s.hidePageRefColumn
        useTitleInFooter := s.useTitleInFooter
        excludeUnspentPointsFromTotal := s.excludeUnspentPointsFromTotal
        showLiftingSTDamage := s.showLiftingSTDamage
        showIQBasedDamage := s.showIQBasedDamage
        useSkillModifierAdjustments := s.useSkillModifierAdjustments
        easySkillModifierOverride := s.easySkillModifierOverride
        averageSkillModifierOverride := s.averageSkillModifierOverride
        hardSkillModifierOverride := s.hardSkillModifierOverride
        veryHardSkillModifierOverride := s.veryHardSkillModifierOverride
        easySkillModifierAdjustment := s.easySkillModifierAdjustment
        averageSkillModifierAdjustment := s.averageSkillModifierAdjustment
        hardSkillModifierAdjustment := s.hardSkillModifierAdjustment
        veryHardSkillModifierAdjustment := s.veryHardSkillModifierAdjustment
        useBasicMoveForDodge := s.useBasicMoveForDodge
        includeDodgeFlatBonus := if legacyGuard s then true else s.includeDodgeFlatBonus
        includePDArmor := s.includePDArmor
        includePDShields := s.includePDShields
        usePassiveDefense := s.usePassiveDefense
        showPDColumn := s.usePassiveDefense
        dodgeOverride := s.dodgeOverride } := by
  have hg : legacyGuard (healEnums ops (healSubDocuments ops s)) = legacyGuard s := rfl
  unfold ensureValidity syncShowPDColumn applyLegacyDodgeHeuristic
  rw [hg]
  by_cases h : legacyGuard s = true <;> simp only [h, if_true, if_false] <;> rfl

lemma legacyGuard_iff (s : SheetSettingsData P B A C) :
    legacyGuard s = true ↔ dodgeAndSkillFieldsAtZero s := by
  unfold legacyGuard dodgeFieldsAtDefaults skillModifierFieldsAtDefaults
    dodgeAndSkillFieldsAtZero
  simp [and_assoc]

lemma ensureValidity_showTraitModifierAdj (ops : ExternalOps P B A C)
    (s : SheetSettingsData P B A C) :
    (ensureValidity ops s).showTraitModifierAdj = s.showTraitModifierAdj := by
  rw [ensureValidity_eq]

lemma ensureValidity_includeDodgeFlatBonus (ops : ExternalOps P B A C)
    (s : SheetSettingsData P B A C) :
    (ensureValidity ops s).includeDodgeFlatBonus =
      if legacyGuard s then true else s.includeDodgeFlatBonus := by
  rw [ensureValidity_eq]

@[simp] lemma ensureValidity_useMultiplicativeModifiers (ops : ExternalOps P B A C)
    (s : SheetSettingsData P B A C) :
    (ensureValidity ops s).useMultiplicativeModifiers = s.useMultiplicativeModifiers := by
  rw [ensureValidity_eq]

@[simp] lemma ensureValidity_useModifyingDicePlusAdds (ops : ExternalOps P B A C)
    (s : SheetSettingsData P B A C) :
    (ensureValidity ops s).useModifyingDicePlusAdds = s.useModifyingDicePlusAdds := by
  rw [ensureValidity_eq]

@[simp] lemma ensureValidity_useHalfStatDefaults (ops : ExternalOps P B A C)
    (s : SheetSettingsData P B A C) :
    (ensureValidity ops s).useHalfStatDefaults = s.useHalfStatDefaults := by
  rw [ensureValidity_eq]

@[simp] lemma ensureValidity_showEquipmentModifierAdj (ops : ExternalOps P B A C)
    (s : SheetSettingsData P B A C) :
    (ensureValidity ops s).showEquipmentModifierAdj = s.showEquipmentModifierAdj := by
  rw [ensureValidity_eq]

@[simp] lemma ensureValidity_showAllWeapons (ops : ExternalOps P B A C)
    (s : SheetSettingsData P B A C) :
    (ensureValidity ops s).showAllWeapons = s.showAllWeapons := by
  rw [ensureValidity_eq]

@[simp] lemma ensureValidity_showSpellAdj (ops : ExternalOps P B A C)
    (s : SheetSettingsData P B A C) :
    (ensureValidity ops s).showSpellAdj = s.showSpellAdj := by
  rw [ensureValidity_eq]

@[simp] lemma ensureValidity_hideSourceMismatch (ops : ExternalOps P B A C)
    (s : SheetSettingsData P B A C) :
    (ensureValidity ops s).hideSourceMismatch = s.hideSourceMismatch := by
  rw [ensureValidity_eq]

@[simp] lemma ensureValidity_hideTLColumn (ops : ExternalOps P B A C)
    (s : SheetSettingsData P B A C) :
    (ensureValidity ops s).hideTLColumn = s.hideTLColumn := by
  rw [ensureValidity_eq]

@[simp] lemma ensureValidity_hideLCColumn (ops : ExternalOps P B A C)
    (s : SheetSettingsData P B A C) :
    (ensureValidity ops s).hideLCColumn = s.hideLCColumn := by
  rw [ensureValidity_eq]

@[simp] lemma ensureValidity_hidePageRefColumn (ops : ExternalOps P B A C)
    (s : SheetSettingsData P B A C) :
    (ensureValidity ops s).hidePageRefColumn = s.hidePageRefColumn := by
  rw [ensureValidity_eq]

@[simp] lemma ensureValidity_useTitleInFooter (ops : ExternalOps P B A C)
    (s : SheetSettingsData P B A C) :
    (ensureValidity ops s).useTitleInFooter = s.useTitleInFooter := by
  rw [ensureValidity_eq]

@[simp] lemma ensureValidity_excludeUnspentPointsFromTotal (ops : ExternalOps P B A C)
    (s : SheetSettingsData P B A C) :
    (ensureValidity ops s).excludeUnspentPointsFromTotal = s.excludeUnspentPointsFromTotal := by
  rw [ensureValidity_eq]

@[simp] lemma ensureValidity_showLiftingSTDamage (ops : ExternalOps P B A C)
    (s : SheetSettingsData P B A C) :
    (ensureValidity ops s).showLiftingSTDamage = s.showLiftingSTDamage := by
  rw [ensureValidity_eq]

@[simp] lemma ensureValidity_showIQBasedDamage (ops : ExternalOps P B A C)
    (s : SheetSettingsData P B A C) :
    (ensureValidity ops s).showIQBasedDamage = s.showIQBasedDamage := by
  rw [ensureValidity_eq]

@[simp] lemma ensureValidity_useSkillModifierAdjustments (ops : ExternalOps P B A C)
    (s : SheetSettingsData P B A C) :
    (ensureValidity ops s).useSkillModifierAdjustments = s.useSkillModifierAdjustments := by
  rw [ensureValidity_eq]

@[simp] lemma ensureValidity_easySkillModifierOverride (ops : ExternalOps P B A C)
    (s : SheetSettingsData P B A C) :
    (ensureValidity ops s).easySkillModifierOverride = s.easySkillModifierOverride := by
  rw [ensureValidity_eq]

@[simp] lemma ensureValidity_averageSkillModifierOverride (ops : ExternalOps P B A C)
    (s : SheetSettingsData P B A C) :
    (ensureValidity ops s).averageSkillModifierOverride = s.averageSkillModifierOverride := by
  rw [ensureValidity_eq]

@[simp] lemma ensureValidity_hardSkillModifierOverride (ops : ExternalOps P B A C)
    (s : SheetSettingsData P B A C) :
    (ensureValidity ops s).hardSkillModifierOverride = s.hardSkillModifierOverride := by
  rw [ensureValidity_eq]

@[simp] lemma ensureValidity_veryHardSkillModifierOverride (ops : ExternalOps P B A C)
    (s : SheetSettingsData P B A C) :
    (ensureValidity ops s).veryHardSkillModifierOverride = s.veryHardSkillModifierOverride := by
  rw [ensureValidity_eq]

@[simp] lemma ensureValidity_easySkillModifierAdjustment (ops : ExternalOps P B A C)
    (s : SheetSettingsData P B A C) :
    (ensureValidity ops s).easySkillModifierAdjustment = s.easySkillModifierAdjustment := by
  rw [ensureValidity_eq]

@[simp] lemma ensureValidity_averageSkillModifierAdjustment (ops : ExternalOps P B A C)
    (s : SheetSettingsData P B A C) :
    (ensureValidity ops s).averageSkillModifierAdjustment = s.averageSkillModifierAdjustment := by
  rw [ensureValidity_eq]

@[simp] lemma ensureValidity_hardSkillModifierAdjustment (ops : ExternalOps P B A C)
    (s : SheetSettingsData P B A C) :
    (ensureValidity ops s).hardSkillModifierAdjustment = s.hardSkillModifierAdjustment := by
  rw [ensureValidity_eq]

@[simp] lemma ensureValidity_veryHardSkillModifierAdjustment (ops : ExternalOps P B A C)
    (s : SheetSettingsData P B A C) :
    (ensureValidity ops s).veryHardSkillModifierAdjustment = s.veryHardSkillModifierAdjustment := by
  rw [ensureValidity_eq]

@[simp] lemma ensureValidity_useBasicMoveForDodge (ops : ExternalOps P B A C)
    (s : SheetSettingsData P B A C) :
    (ensureValidity ops s).useBasicMoveForDodge = s.useBasicMoveForDodge := by
  rw [ensureValidity_eq]

@[simp] lemma ensureValidity_includePDArmor (ops : ExternalOps P B A C)
    (s : SheetSettingsData P B A C) :
    (ensureValidity ops s).includePDArmor = s.includePDArmor := by
  rw [ensureValidity_eq]

@[simp] lemma ensureValidity_includePDShields (ops : ExternalOps P B A C)
    (s : SheetSettingsData P B A C) :
    (ensureValidity ops s).includePDShields = s.includePDShields := by
  rw [ensureValidity_eq]

@[simp] lemma ensureValidity_usePassiveDefense (ops : ExternalOps P B A C)
    (s : SheetSettingsData P B A C) :
    (ensureValidity ops s).usePassiveDefense = s.usePassiveDefense := by
  rw [ensureValidity_eq]

@[simp] lemma ensureValidity_dodgeOverride (ops : ExternalOps P B A C)
    (s : SheetSettingsData P B A C) :
    (ensureValidity ops s).dodgeOverride = s.dodgeOverride := by
  rw [ensureValidity_eq]

@[simp] lemma ensureValidity_damageProgression (ops : ExternalOps P B A C)
    (s : SheetSettingsData P B A C) :
    (ensureValidity ops s).damageProgression = enumEnsureValid ops.progressionCount s.damageProgression := by
  rw [ensureValidity_eq]

@[simp] lemma ensureValidity_defaultLengthUnits (ops : ExternalOps P B A C)
    (s : SheetSettingsData P B A C) :
    (ensureValidity ops s).defaultLengthUnits = enumEnsureValid ops.lengthUnitCount s.defaultLengthUnits := by
  rw [ensureValidity_eq]

@[simp] lemma ensureValidity_defaultWeightUnits (ops : ExternalOps P B A C)
    (s : SheetSettingsData P B A C) :
    (ensureValidity ops s).defaultWeightUnits = enumEnsureValid ops.weightUnitCount s.defaultWeightUnits := by
  rw [ensureValidity_eq]

@[simp] lemma ensureValidity_userDescriptionDisplay (ops : ExternalOps P B A C)
    (s : SheetSettingsData P B A C) :
    (ensureValidity ops s).userDescriptionDisplay = enumEnsureValid ops.displayCount s.userDescriptionDisplay := by
  rw [ensureValidity_eq]

@[simp] lemma ensureValidity_modifiersDisplay (ops : ExternalOps P B A C)
    (s : SheetSettingsData P B A C) :
    (ensureValidity ops s).modifiersDisplay = enumEnsureValid ops.displayCount s.modifiersDisplay := by
  rw [ensureValidity_eq]

@[simp] lemma ensureValidity_notesDisplay (ops : ExternalOps P B A C)
    (s : SheetSettingsData P B A C) :
    (ensureValidity ops s).notesDisplay = enumEnsureValid ops.displayCount s.notesDisplay := by
  rw [ensureValidity_eq]

@[simp] lemma ensureValidity_skillLevelAdjDisplay (ops : ExternalOps P B A C)
    (s : SheetSettingsData P B A C) :
    (ensureValidity ops s).skillLevelAdjDisplay = enumEnsureValid ops.displayCount s.skillLevelAdjDisplay := by
  rw [ensureValidity_eq]

@[simp] lemma ensureValidity_page (ops : ExternalOps P B A C)
    (s : SheetSettingsData P B A C) :
    (ensureValidity ops s).page = some (match s.page with
      | none => ops.newPageSettings
      | some p => ops.pageEnsureValidity p) := by
  rw [ensureValidity_eq]

@[simp] lemma ensureValidity_blockLayout (ops : ExternalOps P B A C)
    (s : SheetSettingsData P B A C) :
    (ensureValidity ops s).blockLayout = some (match s.blockLayout with
      | none => ops.newBlockLayout
      | some b => ops.blockLayoutEnsureValidity b) := by
  rw [ensureValidity_eq]

@[simp] lemma ensureValidity_attributes (ops : ExternalOps P B A C)
    (s : SheetSettingsData P B A C) :
    (ensureValidity ops s).attributes = some (s.attributes.getD ops.factoryAttributeDefs) := by
  rw [ensureValidity_eq]

@[simp] lemma ensureValidity_bodyType (ops : ExternalOps P B A C)
    (s : SheetSettingsData P B A C) :
    (ensureValidity ops s).bodyType = some (s.bodyType.getD ops.factoryBody) := by
  rw [ensureValidity_eq]

@[simp] lemma ensureValidity_showPDColumn (ops : ExternalOps P B A C)
    (s : SheetSettingsData P B A C) :
    (ensureValidity ops s).showPDColumn = s.usePassiveDefense := by
  rw [ensureValidity_eq]

lemma skillModifierFieldsAtDefaults_ensureValidity (ops : ExternalOps P B A C)
    (s : SheetSettingsData P B A C) :
    skillModifierFieldsAtDefaults (ensureValidity ops s) =
      skillModifierFieldsAtDefaults s := by
  unfold skillModifierFieldsAtDefaults
  rw [ensureValidity_useSkillModifierAdjustments,
    ensureValidity_easySkillModifierOverride, ensureValidity_averageSkillModifierOverride,
    ensureValidity_hardSkillModifierOverride, ensureValidity_veryHardSkillModifierOverride,
    ensureValidity_easySkillModifierAdjustment, ensureValidity_averageSkillModifierAdjustment,
    ensureValidity_hardSkillModifierAdjustment, ensureValidity_veryHardSkillModifierAdjustment]

lemma legacyGuard_ensureValidity (ops : ExternalOps P B A C)
    (s : SheetSettingsData P B A C) :
    legacyGuard (ensureValidity ops s) = false := by
  unfold legacyGuard dodgeFieldsAtDefaults
  rw [ensureValidity_includeDodgeFlatBonus, ensureValidity_useBasicMoveForDodge,
    skillModifierFieldsAtDefaults_ensureValidity]
  by_cases hg : legacyGuard s = true
  · rw [hg]
    simp
  · have hg2 : legacyGuard s = false := by
      rcases Bool.eq_false_or_eq_true (legacyGuard s) with ht | hf
      · exact absurd ht hg
      · exact hf
    rw [hg2]
    unfold legacyGuard dodgeFieldsAtDefaults at hg2
    simpa using hg2


/-! ## Claim theorems -/

/-- C1: for every settings document in which the dodge-calculation fields and
all the skill-modifier fields are simultaneously at their zero values,
EnsureValidity sets IncludeDodgeFlatBonus to true and the heuristic alters no
other field; for every document where any of those fields is non-default
(for example UseSkillModifierAdjustments true), IncludeDodgeFlatBonus is left
at its original value. -/
theorem legacy_heuristic_forces_dodge_flat_bonus (ops : ExternalOps P B A C)
    (s : SheetSettingsData P B A C) :
    (dodgeAndSkillFieldsAtZero s →
      (ensureValidity ops s).includeDodgeFlatBonus = true ∧
        applyLegacyDodgeHeuristic s = { s with includeDodgeFlatBonus := true }) ∧
    (¬ dodgeAndSkillFieldsAtZero s →
      (ensureValidity ops s).includeDodgeFlatBonus = s.includeDodgeFlatBonus) := by
  constructor
  · intro h
    have hg : legacyGuard s = true := (legacyGuard_iff s).mpr h
    refine ⟨?_, ?_⟩
    · rw [ensureValidity_includeDodgeFlatBonus, hg]
      rfl
    · unfold applyLegacyDodgeHeuristic
      rw [hg]
      rfl
  · intro h
    have hg : legacyGuard s = false := by
      rcases Bool.eq_false_or_eq_true (legacyGuard s) with ht | hf
      · exact absurd ((legacyGuard_iff s).mp ht) h
      · exact hf
    rw [ensureValidity_includeDodgeFlatBonus, hg]
    rfl

/-- C1 witness: the heuristic fires on the all-zero document and leaves the
flag alone on a document with UseSkillModifierAdjustments true. -/
theorem legacy_heuristic_forces_dodge_flat_bonus_witness :
    (ensureValidity unitOps zeroSheetSettings).includeDodgeFlatBonus = true ∧
      (ensureValidity unitOps overrideModeSettings).includeDodgeFlatBonus =
        overrideModeSettings.includeDodgeFlatBonus :=
  ⟨((legacy_heuristic_forces_dodge_flat_bonus unitOps zeroSheetSettings).1
      (by decide)).1,
    (legacy_heuristic_forces_dodge_flat_bonus unitOps overrideModeSettings).2
      (by decide)⟩

/-- C2: the effective skill modifier per tier is baseline plus Adjustment in
adjustment mode and the Override verbatim in override mode, with baselines
Easy 0, Average -1, Hard -2, VeryHard -3. -/
theorem effective_modifier_resolution (s : SheetSettingsData P B A C) :
    (s.useSkillModifierAdjustments = false →
      effectiveModifier s .easy = 0 + s.easySkillModifierAdjustment ∧
        effectiveModifier s .average = -1 + s.averageSkillModifierAdjustment ∧
        effectiveModifier s .hard = -2 + s.hardSkillModifierAdjustment ∧
        effectiveModifier s .veryHard = -3 + s.veryHardSkillModifierAdjustment) ∧
    (s.useSkillModifierAdjustments = true →
      effectiveModifier s .easy = s.easySkillModifierOverride ∧
        effectiveModifier s .average = s.averageSkillModifierOverride ∧
        effectiveModifier s .hard = s.hardSkillModifierOverride ∧
        effectiveModifier s .veryHard = s.veryHardSkillModifierOverride) ∧
    (baselineRelativeSkillModifier .easy = 0 ∧
      baselineRelativeSkillModifier .average = -1 ∧
      baselineRelativeSkillModifier .hard = -2 ∧
      baselineRelativeSkillModifier .veryHard = -3) := by
  refine ⟨fun h => ?_, fun h => ?_, by decide⟩ <;>
    simp [effectiveModifier, h, skillModifierOverrideFor, skillModifierAdjustmentFor,
      baselineRelativeSkillModifier]

/-- C2 witness: the two spec examples, AverageSkillModifierAdjustment 2 in
adjustment mode gives -1 + 2 = 1, and HardSkillModifierOverride 5 in override
mode gives 5 with the adjustment of 100 ignored. -/
theorem effective_modifier_resolution_witness :
    effectiveModifier adjustmentExampleSettings .average = 1 ∧
      effectiveModifier overrideExampleSettings .hard = 5 := by
  have h1 := ((effective_modifier_resolution adjustmentExampleSettings).1 rfl).2.1
  have h2 := ((effective_modifier_resolution overrideExampleSettings).2.1 rfl).2.2.1
  rw [h1, h2]
  decide

/-- C3: after EnsureValidity, ShowPDColumn equals UsePassiveDefense. -/
theorem show_pd_column_synced (ops : ExternalOps P B A C)
    (s : SheetSettingsData P B A C) :
    (ensureValidity ops s).showPDColumn = (ensureValidity ops s).usePassiveDefense :=
  rfl

/-- C5: when the deprecated wrapper key sheet_settings is present its nested
document is used in its entirety, superseding the top-level document; when it
is absent the top-level document is used; in both cases validity enforcement
runs on the chosen document. -/
theorem wrapper_key_supersedes (E : Type) (ops : ExternalOps P B A C)
    (top nested : SheetSettingsData P B A C) :
    newSheetSettingsFromFile (E := E) ops (Except.ok ⟨top, some nested⟩) =
        Except.ok (ensureValidity ops nested) ∧
      newSheetSettingsFromFile (E := E) ops (Except.ok ⟨top, none⟩) =
        Except.ok (ensureValidity ops top) :=
  ⟨rfl, rfl⟩

/-- C6: after the deserialization-time migration, ShowTraitModifierAdj is the
logical OR of the deprecated show_advantage_modifier_adj flag and the
current-key flag; migration never turns the flag off. -/
theorem trait_modifier_adj_is_or (ops : ExternalOps P B A C)
    (content : RawSheetSettingsContent P B A C) :
    (unmarshalJSONFrom ops content).showTraitModifierAdj =
      (content.data.showTraitModifierAdj || content.oldShowTraitModifierAdj) := by
  unfold unmarshalJSONFrom
  rcases hbt : content.data.bodyType with _ | b <;>
    rcases hob : content.oldBodyType with _ | old <;>
    cases hcur : content.data.showTraitModifierAdj <;>
    cases hold : content.oldShowTraitModifierAdj <;>
    simp [hbt, hob, hcur, hold, ensureValidity_showTraitModifierAdj]

/-- C10: the legacy-detection heuristic fires exactly when
IncludeDodgeFlatBonus, UseBasicMoveForDodge and UseSkillModifierAdjustments
are all false and the eight skill-modifier numbers are all zero; the values
of DodgeOverride, IncludePDArmor, IncludePDShields and UsePassiveDefense have
no influence on whether it fires. -/
theorem legacy_guard_exact_fields (s : SheetSettingsData P B A C) :
    (legacyGuard s = true ↔
      (s.includeDodgeFlatBonus = false ∧ s.useBasicMoveForDodge = false ∧
        s.useSkillModifierAdjustments = false ∧
        s.easySkillModifierOverride = 0 ∧ s.averageSkillModifierOverride = 0 ∧
        s.hardSkillModifierOverride = 0 ∧ s.veryHardSkillModifierOverride = 0 ∧
        s.easySkillModifierAdjustment = 0 ∧ s.averageSkillModifierAdjustment = 0 ∧
        s.hardSkillModifierAdjustment = 0 ∧ s.veryHardSkillModifierAdjustment = 0)) ∧
    ∀ d pa ps upd,
      legacyGuard { s with
        dodgeOverride := d
        includePDArmor := pa
        includePDShields := ps
        usePassiveDefense := upd } = legacyGuard s :=
  ⟨legacyGuard_iff s, fun _ _ _ _ => rfl⟩

/-- C4: EnsureValidity is idempotent for every document, including documents
with null sub-documents or out-of-range enumeration ranks, provided the
validity routines of the external page and block-layout sub-documents are
themselves idempotent and fix their factory defaults. -/
theorem ensure_validity_idempotent (ops : ExternalOps P B A C)
    (hpi : ∀ p, ops.pageEnsureValidity (ops.pageEnsureValidity p) =
      ops.pageEnsureValidity p)
    (hpf : ops.pageEnsureValidity ops.newPageSettings = ops.newPageSettings)
    (hbi : ∀ b, ops.blockLayoutEnsureValidity (ops.blockLayoutEnsureValidity b) =
      ops.blockLayoutEnsureValidity b)
    (hbf : ops.blockLayoutEnsureValidity ops.newBlockLayout = ops.newBlockLayout)
    (s : SheetSettingsData P B A C) :
    ensureValidity ops (ensureValidity ops s) = ensureValidity ops s := by
  ext
  all_goals
    try simp [legacyGuard_ensureValidity, ensureValidity_includeDodgeFlatBonus,
      ensureValidity_showTraitModifierAdj, enumEnsureValid_idem]
  · rcases s.page with _ | p <;> simp [hpf, hpi]
  · rcases s.blockLayout with _ | b <;> simp [hbf, hbi]

/-- C4 witness: idempotence evaluated at the concrete collaborators and a
hand-crafted document with null sub-documents and out-of-range enumeration
ranks. -/
theorem ensure_validity_idempotent_witness :
    (∀ p : Unit, unitOps.pageEnsureValidity (unitOps.pageEnsureValidity p) =
        unitOps.pageEnsureValidity p) ∧
      unitOps.pageEnsureValidity unitOps.newPageSettings = unitOps.newPageSettings ∧
      (∀ b : Unit, unitOps.blockLayoutEnsureValidity
          (unitOps.blockLayoutEnsureValidity b) = unitOps.blockLayoutEnsureValidity b) ∧
      unitOps.blockLayoutEnsureValidity unitOps.newBlockLayout =
        unitOps.newBlockLayout ∧
      ensureValidity unitOps (ensureValidity unitOps invalidEnumSettings) =
        ensureValidity unitOps invalidEnumSettings :=
  ⟨fun _ => rfl, rfl, fun _ => rfl, rfl,
    ensure_validity_idempotent unitOps (fun _ => rfl) rfl (fun _ => rfl) rfl
      invalidEnumSettings⟩

/-- C7: loading fails exactly when the byte stream could not be located or
parsed; a parse success never fails, whatever the content, and the result
depends only on the healed document, so a caller cannot distinguish a cleanly
loaded document from a repaired one. -/
theorem load_fails_iff_parse_fails (E : Type) (ops : ExternalOps P B A C) :
    (∀ e : E, newSheetSettingsFromFile ops (Except.error e) = Except.error e) ∧
      (∀ data : SheetSettingsFileData P B A C,
        newSheetSettingsFromFile (E := E) ops (Except.ok data) =
          Except.ok (ensureValidity ops (match data.oldLocation with
            | some s => s
            | none => data.sheetSettings))) ∧
      (∀ d1 d2 : SheetSettingsFileData P B A C,
        ensureValidity ops (match d1.oldLocation with
            | some s => s
            | none => d1.sheetSettings) =
          ensureValidity ops (match d2.oldLocation with
            | some s => s
            | none => d2.sheetSettings) →
        newSheetSettingsFromFile (E := E) ops (Except.ok d1) =
          newSheetSettingsFromFile (E := E) ops (Except.ok d2)) :=
  ⟨fun _ => rfl, fun _ => rfl, fun _ _ h => congrArg Except.ok h⟩

/-- C7 witness: a semantically invalid but parseable document loads without
error, to the same result as the clean document it heals to. -/
theorem load_fails_iff_parse_fails_witness :
    newSheetSettingsFromFile unitOps
        (Except.ok ⟨invalidEnumSettings, none⟩ :
          Except Unit (SheetSettingsFileData Unit Unit Unit Unit)) =
      newSheetSettingsFromFile unitOps (Except.ok ⟨zeroSheetSettings, none⟩) :=
  (load_fails_iff_parse_fails Unit unitOps).2.2 ⟨invalidEnumSettings, none⟩
    ⟨zeroSheetSettings, none⟩ (by decide)

lemma boolField_getD (b : Bool) : (boolField b).getD false = b := by
  cases b <;> rfl

lemma intField_getD (v : Int) : (intField v).getD 0 = v := by
  unfold intField
  by_cases h : v = 0 <;> simp [h]

/-- Decoding a sparsely serialized document restores it exactly: omitted
default-valued fields decode back to their zero values. -/
lemma decodeSerialized_marshalJSONTo (s : SheetSettingsData P B A C) :
    decodeSerialized (marshalJSONTo s) = s := by
  ext <;> simp [decodeSerialized, marshalJSONTo, boolField_getD, intField_getD]

/-- The factory document is a fixed point of EnsureValidity, provided the
external factory sub-documents are valid and the factory enumeration members
are in range. -/
lemma ensureValidity_factory (ops : ExternalOps P B A C)
    (hpf : ops.pageEnsureValidity ops.newPageSettings = ops.newPageSettings)
    (hbf : ops.blockLayoutEnsureValidity ops.newBlockLayout = ops.newBlockLayout)
    (h1 : ops.basicSet < ops.progressionCount)
    (h2 : ops.feetAndInches < ops.lengthUnitCount)
    (h3 : ops.pound < ops.weightUnitCount)
    (h4 : ops.inline < ops.displayCount)
    (h5 : ops.tooltip < ops.displayCount) :
    ensureValidity ops (factorySheetSettings ops) = factorySheetSettings ops := by
  ext
  all_goals
    try simp [factorySheetSettings, ensureValidity_includeDodgeFlatBonus,
      ensureValidity_showTraitModifierAdj, legacyGuard, dodgeFieldsAtDefaults,
      enumEnsureValid_of_lt, h1, h2, h3, h4, h5, hpf, hbf]

/-- C8: saving the factory-default document and loading it back reproduces
the factory-default document field for field, although default-valued fields
are omitted from the serialized output. -/
theorem factory_round_trip (ops : ExternalOps P B A C)
    (hpf : ops.pageEnsureValidity ops.newPageSettings = ops.newPageSettings)
    (hbf : ops.blockLayoutEnsureValidity ops.newBlockLayout = ops.newBlockLayout)
    (h1 : ops.basicSet < ops.progressionCount)
    (h2 : ops.feetAndInches < ops.lengthUnitCount)
    (h3 : ops.pound < ops.weightUnitCount)
    (h4 : ops.inline < ops.displayCount)
    (h5 : ops.tooltip < ops.displayCount) :
    loadSerialized ops (marshalJSONTo (factorySheetSettings ops)) =
      factorySheetSettings ops := by
  unfold loadSerialized
  rw [decodeSerialized_marshalJSONTo]
  have hmid : unmarshalJSONFrom ops { data := factorySheetSettings ops } =
      ensureValidity ops (factorySheetSettings ops) := rfl
  rw [hmid, ensureValidity_factory ops hpf hbf h1 h2 h3 h4 h5,
    ensureValidity_factory ops hpf hbf h1 h2 h3 h4 h5]

/-- C8 witness: the round trip evaluated at the concrete collaborators. -/
theorem factory_round_trip_witness :
    unitOps.basicSet < unitOps.progressionCount ∧
      unitOps.inline < unitOps.displayCount ∧
      loadSerialized unitOps (marshalJSONTo (factorySheetSettings unitOps)) =
        factorySheetSettings unitOps :=
  ⟨by decide, by decide,
    factory_round_trip unitOps rfl rfl (by decide) (by decide) (by decide)
      (by decide) (by decide)⟩

/-- C9: Clone deep-copies every owned sub-document into fresh cells, so the
cloned pointers differ from the originals and mutating a sub-document of the
clone leaves the corresponding sub-document of the original unchanged. -/
theorem clone_isolation (pc : P → P) (bc : B → B) (ac : A → A) (cc : C → C)
    (st : SubDocStore P B A C) (s : SheetSettingsRefs P B A C) (hwf : s.wf st) :
    ((cloneSettings pc bc ac cc st s).2.pageRef ≠ s.pageRef ∧
      (cloneSettings pc bc ac cc st s).2.blockLayoutRef ≠ s.blockLayoutRef ∧
      (cloneSettings pc bc ac cc st s).2.attributesRef ≠ s.attributesRef ∧
      (cloneSettings pc bc ac cc st s).2.bodyTypeRef ≠ s.bodyTypeRef) ∧
    (∀ v, (((cloneSettings pc bc ac cc st s).1.pages.write
        (cloneSettings pc bc ac cc st s).2.pageRef v).read s.pageRef) =
        st.pages.read s.pageRef) ∧
    (∀ v, (((cloneSettings pc bc ac cc st s).1.blockLayouts.write
        (cloneSettings pc bc ac cc st s).2.blockLayoutRef v).read s.blockLayoutRef) =
        st.blockLayouts.read s.blockLayoutRef) ∧
    (∀ v, (((cloneSettings pc bc ac cc st s).1.attributeDefs.write
        (cloneSettings pc bc ac cc st s).2.attributesRef v).read s.attributesRef) =
        st.attributeDefs.read s.attributesRef) ∧
    (∀ v, (((cloneSettings pc bc ac cc st s).1.bodies.write
        (cloneSettings pc bc ac cc st s).2.bodyTypeRef v).read s.bodyTypeRef) =
        st.bodies.read s.bodyTypeRef) := by
  obtain ⟨h1, h2, h3, h4⟩ := hwf
  refine ⟨⟨?_, ?_, ?_, ?_⟩, fun v => ?_, fun v => ?_, fun v => ?_, fun v => ?_⟩ <;>
    simp [cloneSettings, Heap.alloc, Heap.read, Heap.write,
      ne_of_lt h1, ne_of_lt h2, ne_of_lt h3, ne_of_lt h4,
      ne_of_gt h1, ne_of_gt h2, ne_of_gt h3, ne_of_gt h4]

/-- C9 witness: cloning a concrete store and writing 99 through the cloned
page pointer leaves the original page cell at its value 7. -/
theorem clone_isolation_witness :
    natRefs.wf natStore ∧
      (((cloneSettings id id id id natStore natRefs).1.pages.write
          (cloneSettings id id id id natStore natRefs).2.pageRef 99).read
        natRefs.pageRef) = natStore.pages.read natRefs.pageRef :=
  ⟨by decide,
    (clone_isolation id id id id natStore natRefs (by decide)).2.1 99⟩

end GCS
